import Mathlib

/-!
Verification development for the Creator Identity Verification and
Cross-Platform Reconciliation Engine.

Part 1 embeds the verification scoring and identity operations of
`src/UCI SRC/src/lib/identity/CreativeIdentity.ts`; part 2 embeds the
sync and conflict-resolution pipeline of the cross-platform sync
architecture sketch.  Numbers that are JavaScript floats in the source
are modelled as rationals, timestamps as integers, and fallible
operations as `Except`/`Option` values.
-/

/-- The closed enumeration of verification method types
(`VerificationMethod.type` in `src/types/identity.ts`). -/
inductive VMethodType where
  | biometric
  | government_id
  | social_proof
  | platform_verification
  | community_vouching
deriving DecidableEq, Repr

/-- Verification method status (`VerificationMethod.status`). -/
inductive VMethodStatus where
  | verified
  | pending
  | failed
  | expired
deriving DecidableEq, Repr

/-- A verification method, keeping the fields the scoring and spec
formulas consult: `type`, `status`, `confidence`, and the optional
`expiresAt` timestamp. -/
structure VerificationMethod where
  type : VMethodType
  status : VMethodStatus
  confidence : ℚ
  expiresAt : Option ℤ
deriving DecidableEq, Repr

/-- The fixed per-type weights of `calculateVerificationLevel`. -/
def methodWeight : VMethodType → ℚ
  | VMethodType.biometric => 20
  | VMethodType.government_id => 30
  | VMethodType.social_proof => 15
  | VMethodType.platform_verification => 25
  | VMethodType.community_vouching => 10

/-- The accumulation loop of `calculateVerificationLevel`: starting from
`score = 0`, every method with `status === verified` adds
`weights[method.type] * method.confidence`. -/
def verificationScore (methods : List VerificationMethod) : ℚ :=
  methods.foldl
    (fun score m =>
      if m.status = VMethodStatus.verified then
        score + methodWeight m.type * m.confidence
      else score)
    0

/-- Embedding of `calculateVerificationLevel`: the accumulated score,
floored and capped at 100 (`Math.min(100, Math.floor(score))`).  The
source consults neither `expiresAt` nor any lower bound. -/
def calculateVerificationLevel (methods : List VerificationMethod) : ℤ :=
  min 100 ⌊verificationScore methods⌋

/-- Whether a method is not expired at time `now` (a method with
`expiresAt = some t` is expired once `t ≤ now`; absent `expiresAt`
never expires). -/
def notExpired (now : ℤ) (m : VerificationMethod) : Bool :=
  match m.expiresAt with
  | none => true
  | some t => decide (now < t)

/-- The contribution of a single method to the verified sum. -/
def methodContribution (m : VerificationMethod) : ℚ :=
  if m.status = VMethodStatus.verified then methodWeight m.type * m.confidence else 0

/-- Modelled from the spec, for comparison with the source: the claimed
verification level — the sum over methods with status verified and not
expired of weight times confidence, clamped to [0,100], floored. -/
def specVerificationLevel (now : ℤ) (methods : List VerificationMethod) : ℤ :=
  ⌊max 0 (min 100
    (((methods.filter
        (fun m => m.status = VMethodStatus.verified ∧ notExpired now m = true)).map
      (fun m => methodWeight m.type * m.confidence)).sum))⌋

/-- Modelled from the spec, for comparison with the source: the claimed
formula with the expiry exclusion dropped — the sum over methods with
status verified of weight times confidence, clamped to [0,100],
floored. -/
def specVerificationLevelNoExpiry (methods : List VerificationMethod) : ℤ :=
  ⌊max 0 (min 100
    (((methods.filter (fun m => m.status = VMethodStatus.verified)).map
      (fun m => methodWeight m.type * m.confidence)).sum))⌋

/-- The identity record (`UniversalCreativeID` in `src/types/identity.ts`),
keeping the fields the embedded operations touch. -/
structure UniversalCreativeID where
  verificationLevel : ℤ
  verificationMethods : List VerificationMethod
  connectedPlatforms : List String
  authenticityScore : ℤ
deriving DecidableEq, Repr

/-- Embedding of `CreativeIdentity.connectPlatform`: the source throws
unconditionally (`Platform connection not implemented yet`). -/
def connectPlatform (_platformId : String) : Except String String :=
  Except.error "Platform connection not implemented yet"

/-- Embedding of the pure core of `CreativeIdentity.createIdentity`,
parameterised over the platform-connection collaborator `connect` (the
source's `connectPlatform`): reject when the biometric confidence is
below 0.95; otherwise build the identity with `verificationLevel = 10`
(the source's literal base level), the single verified biometric
method, `authenticityScore = 10`, and then, for every initial platform
whose connection succeeds, record the connection and add a flat 10 to
`verificationLevel` (failures are swallowed with a warning).  External
registration, contract deployment, and storage collaborators are out
of scope and modelled as succeeding. -/
def createIdentityWith (connect : String → Except String String)
    (bioConfidence : ℚ) (initialPlatforms : List String) :
    Except String UniversalCreativeID :=
  if bioConfidence < 0.95 then
    Except.error "Biometric verification failed - insufficient confidence"
  else
    let base : UniversalCreativeID :=
      { verificationLevel := 10
        verificationMethods :=
          [{ type := VMethodType.biometric, status := VMethodStatus.verified,
             confidence := bioConfidence, expiresAt := none }]
        connectedPlatforms := []
        authenticityScore := 10 }
    Except.ok (initialPlatforms.foldl
      (fun identity pid =>
        match connect pid with
        | Except.ok _ =>
            { identity with
              connectedPlatforms := identity.connectedPlatforms ++ [pid]
              verificationLevel := identity.verificationLevel + 10 }
        | Except.error _ => identity)
      base)

/-- `createIdentity` as in the source, with its actual (always-failing)
`connectPlatform` collaborator. -/
def createIdentity (bioConfidence : ℚ) (initialPlatforms : List String) :
    Except String UniversalCreativeID :=
  createIdentityWith connectPlatform bioConfidence initialPlatforms

/-- Embedding of `CreativeIdentity.updateVerificationLevel`, given the
result of the `getIdentity` lookup: fail only when the identity is not
found; otherwise append the new method as supplied (no validation of
`confidence` or `type` occurs in the source), recompute the level via
`calculateVerificationLevel`, and return the updated identity with the
new level. -/
def updateVerificationLevel (identity : Option UniversalCreativeID)
    (newVerification : VerificationMethod) :
    Except String (UniversalCreativeID × ℤ) :=
  match identity with
  | none => Except.error "Identity not found"
  | some id0 =>
      let methods := id0.verificationMethods ++ [newVerification]
      let newLevel := calculateVerificationLevel methods
      Except.ok
        ({ id0 with verificationMethods := methods, verificationLevel := newLevel },
         newLevel)

/-- Connection status of a platform connection (`connectionStatus`). -/
inductive ConnStatus where
  | connected
  | verified
  | expired
  | revoked
deriving DecidableEq, Repr

/-- A platform connection, keeping the fields the sync engine consults. -/
structure SyncPlatformConnection where
  platformId : String
  connectionStatus : ConnStatus
deriving DecidableEq, Repr

/-- The normalized metrics of a transformed platform snapshot, keeping the
field conflict detection reads. -/
structure SyncMetrics where
  followerCount : ℚ
deriving DecidableEq, Repr

/-- The per-profile part of a change set (`changes.profile`). -/
structure ProfileChanges where
  bio : Option String
deriving DecidableEq, Repr

/-- A change set detected since the last sync (`ChangeSet`). -/
structure ChangeSet where
  profile : Option ProfileChanges
deriving DecidableEq, Repr

/-- A per-platform sync result (`PlatformSyncResult`): either a success
record carrying changes and metrics, or a failure record carrying an
error message; both carry `platformId` and `lastSync`. -/
structure PlatformSyncResult where
  platformId : String
  success : Bool
  changes : Option ChangeSet
  metrics : Option SyncMetrics
  error : Option String
  lastSync : ℤ
deriving DecidableEq, Repr

/-- A candidate value inside a conflict.  The detector builds follower
candidates with a `count` field and bio candidates with a `bio` field;
no candidate ever carries the `value` field some strategies read. -/
structure Candidate where
  platform : String
  count : Option ℚ
  bio : Option String
  timestamp : ℤ
deriving DecidableEq, Repr

/-- A detected conflict (`DataConflict`). -/
structure DataConflict where
  type : String
  field : String
  values : List Candidate
  severity : String
  autoResolvable : Bool
deriving DecidableEq, Repr

/-- A JavaScript value produced as a resolution: a number, a string, or
undefined. -/
inductive ResolvedValue where
  | num (q : ℚ)
  | str (s : String)
  | undef
deriving DecidableEq, Repr

/-- The result a resolution strategy returns (`ResolutionResult`). -/
structure ResolutionResult where
  resolvedValue : ResolvedValue
  strategy : String
  confidence : ℚ
  reasoning : String
deriving DecidableEq, Repr

/-- The creator profile, keeping the fields the resolver touches: the
bio and follower count that resolutions write, the verified-platforms
set the verified-platform strategy reads, and the platform
connections the sync fan-out iterates. -/
structure CreatorProfile where
  bio : String
  followerCount : ℚ
  platformsVerified : List String
  platformConnections : List SyncPlatformConnection
deriving DecidableEq, Repr

/-- The follower-count candidates of `detectConflicts`: one per sync
result, with value `r.metrics?.followerCount || 0` (a platform without
metrics contributes 0). -/
def followerCandidates (syncResults : List PlatformSyncResult) : List Candidate :=
  syncResults.map fun r =>
    { platform := r.platformId
      count := some ((r.metrics.map SyncMetrics.followerCount).getD 0)
      bio := none
      timestamp := r.lastSync }

/-- The bio reported as changed by a sync result
(`r.changes?.profile?.bio`, with JavaScript truthiness: an absent or
empty bio does not count). -/
def reportedBio (r : PlatformSyncResult) : Option String :=
  match r.changes with
  | none => none
  | some cs =>
      match cs.profile with
      | none => none
      | some pc =>
          match pc.bio with
          | none => none
          | some b => if b = "" then none else some b

/-- The bio-update candidates of `detectConflicts`: the sync results
whose change set reports a (truthy) bio. -/
def bioUpdates (syncResults : List PlatformSyncResult) : List Candidate :=
  syncResults.filterMap fun r =>
    (reportedBio r).map fun b =>
      { platform := r.platformId, count := none, bio := some b, timestamp := r.lastSync }

/-- Modelled from the spec: `hasSignificantVariance` is called but not
defined in the source; §4.3 flags numeric fields whose coefficient of
variation exceeds the default threshold 0.15, written here squared to
stay inside the rationals. -/
def hasSignificantVariance (vals : List ℚ) : Bool :=
  if vals.length = 0 then false
  else
    let n : ℚ := vals.length
    let mean := vals.sum / n
    let variance := (vals.map fun x => (x - mean) * (x - mean)).sum / n
    decide (3 / 20 * (3 / 20) * (mean * mean) < variance)

/-- Splits a character list at whitespace, producing the (possibly
empty) chunks between whitespace characters. -/
def splitWhitespaceAux : List Char → List (List Char)
  | [] => [[]]
  | c :: rest =>
      let acc := splitWhitespaceAux rest
      if c.isWhitespace then [] :: acc
      else
        match acc with
        | [] => [[c]]
        | w :: ws => (c :: w) :: ws

/-- Modelled from the spec: the case/whitespace normalization §4.3 uses
to compare text fields — lowercase, trim, and collapse internal
whitespace runs to single spaces. -/
def normalizeText (s : String) : String :=
  String.mk (List.intercalate [' ']
    ((splitWhitespaceAux (s.toList.map Char.toLower)).filter fun w => w ≠ []))

/-- Modelled from the spec: `hasDifferentValues` is called but not
defined in the source; §4.3 raises a text conflict when the values
differ under case/whitespace-normalized comparison. -/
def hasDifferentValues (vals : List String) : Bool :=
  match vals with
  | [] => false
  | x :: xs => xs.any fun y => normalizeText y ≠ normalizeText x

/-- Embedding of `ConflictResolver.detectConflicts`: a medium,
auto-resolvable `follower_count_variance` conflict over all reported
follower counts when their variance is significant, and a high,
non-auto-resolvable `bio_conflict` when more than one sync result
reports a bio change and the reported bios differ.  The `profile`
parameter is unused by the source's body as well. -/
def detectConflicts (_profile : CreatorProfile)
    (syncResults : List PlatformSyncResult) : List DataConflict :=
  let followerCounts := followerCandidates syncResults
  let followerConflicts :=
    if hasSignificantVariance (followerCounts.map fun f => f.count.getD 0) then
      [{ type := "follower_count_variance", field := "metrics.followerCount",
         values := followerCounts, severity := "medium", autoResolvable := true }]
    else []
  let bios := bioUpdates syncResults
  let bioConflicts :=
    if bios.length > 1 ∧ hasDifferentValues (bios.map fun b => b.bio.getD "") = true then
      [{ type := "bio_conflict", field := "personalInfo.bio",
         values := bios, severity := "high", autoResolvable := false }]
    else []
  followerConflicts ++ bioConflicts

/-- The closed set of resolution strategies the source registers. -/
inductive ResolutionStrategy where
  | latestTimestamp
  | longestValue
  | verifiedPlatform
  | weightedAverage
deriving DecidableEq, Repr

/-- Embedding of the strategy registry built by the `ConflictResolver`
constructor: latest timestamp for follower-count variance, longest
value for bio conflicts, verified platform for username conflicts, and
weighted average for engagement variance. -/
def resolutionStrategies : String → Option ResolutionStrategy
  | "follower_count_variance" => some ResolutionStrategy.latestTimestamp
  | "bio_conflict" => some ResolutionStrategy.longestValue
  | "username_conflict" => some ResolutionStrategy.verifiedPlatform
  | "engagement_variance" => some ResolutionStrategy.weightedAverage
  | _ => none

/-- The JavaScript expression `latest.count || latest.value`: the
candidates built by the detector never carry a `value` field, so a
missing or zero (falsy) count falls through to undefined. -/
def jsCountOrValue (c : Candidate) : ResolvedValue :=
  match c.count with
  | some q => if q = 0 then ResolvedValue.undef else ResolvedValue.num q
  | none => ResolvedValue.undef

/-- The reduce step of `LatestTimestampStrategy`: keep the candidate
with the strictly greater timestamp, the earlier one on ties. -/
def pickLatest (v : Candidate) (vs : List Candidate) : Candidate :=
  vs.foldl (fun prev curr => if prev.timestamp < curr.timestamp then curr else prev) v

/-- Embedding of `LatestTimestampStrategy.resolve`: reduce the candidate
list to the latest-timestamp candidate (a JavaScript reduce over an
empty list throws, modelled as `none`); resolve to its count (or the
never-present `value` field), with strategy `latest_timestamp` and
confidence 0.9.  The Date rendering inside the reasoning string is
abbreviated to the raw timestamp. -/
def latestTimestampResolve (c : DataConflict) : Option ResolutionResult :=
  match c.values with
  | [] => none
  | v :: vs =>
      let latest := pickLatest v vs
      some { resolvedValue := jsCountOrValue latest
             strategy := "latest_timestamp"
             confidence := 9 / 10
             reasoning := "Used latest value from " ++ latest.platform ++
               " (" ++ toString latest.timestamp ++ ")" }

/-- Modelled from the spec: `LongestValueStrategy` is registered for
`bio_conflict` but its class is absent from the source; §4.4 prefers
the longer normalized string, ties broken by latest timestamp.  The
spec fixes no confidence value for this strategy. -/
def longestValueResolve (c : DataConflict) : Option ResolutionResult :=
  match c.values with
  | [] => none
  | v :: vs =>
      let best := vs.foldl
        (fun prev curr =>
          let lp := (normalizeText (prev.bio.getD "")).length
          let lc := (normalizeText (curr.bio.getD "")).length
          if lp < lc then curr
          else if lc < lp then prev
          else if prev.timestamp < curr.timestamp then curr else prev)
        v
      some { resolvedValue :=
               match best.bio with
               | some b => ResolvedValue.str b
               | none => ResolvedValue.undef
             strategy := "longest_value"
             confidence := 17 / 20
             reasoning := "Used longest normalized value from " ++ best.platform }

/-- Embedding of `VerifiedPlatformStrategy.resolve`: prefer the first
candidate whose platform is in the profile's verified-platforms set —
the source then reads `verifiedValue.value`, a field the detector
never sets, hence undefined — and fall back to latest timestamp when
none qualifies. -/
def verifiedPlatformResolve (profile : CreatorProfile) (c : DataConflict) :
    Option ResolutionResult :=
  match c.values.find? (fun v => profile.platformsVerified.contains v.platform) with
  | some v =>
      some { resolvedValue := ResolvedValue.undef
             strategy := "verified_platform"
             confidence := 19 / 20
             reasoning := "Used value from verified platform: " ++ v.platform }
  | none => latestTimestampResolve c

/-- Modelled from the spec: `WeightedAverageStrategy` is registered for
`engagement_variance` but its class is absent from the source; §4.4
weights each candidate by the reporting platform's follower count (or
1 if absent), averages, and rounds to the field's precision (an
integer).  This definition is also the spec-side weighted-average
formula the claims compare against. -/
def weightedAverageResolve (c : DataConflict) : Option ResolutionResult :=
  match c.values with
  | [] => none
  | _ =>
      let weightOf := fun (v : Candidate) => v.count.getD 1
      let totalWeight := (c.values.map weightOf).sum
      let avg := (c.values.map fun v => v.count.getD 0 * weightOf v).sum / totalWeight
      some { resolvedValue := ResolvedValue.num ((round avg : ℤ) : ℚ)
             strategy := "weighted_average"
             confidence := 4 / 5
             reasoning := "Weighted average across platforms" }

/-- Dispatch a strategy value to its resolve function; the profile is
the one the resolver was handed (the source passes the original,
unmutated profile to every strategy). -/
def runStrategy (s : ResolutionStrategy) (profile : CreatorProfile)
    (c : DataConflict) : Option ResolutionResult :=
  match s with
  | ResolutionStrategy.latestTimestamp => latestTimestampResolve c
  | ResolutionStrategy.longestValue => longestValueResolve c
  | ResolutionStrategy.verifiedPlatform => verifiedPlatformResolve profile c
  | ResolutionStrategy.weightedAverage => weightedAverageResolve c

/-- Modelled from the spec: `applyResolution` is called but not defined
in the source; §4.5 applies each resolved field value to the profile
copy — a string resolution to the bio field, a numeric resolution to
the follower-count field, anything else is left unapplied. -/
def applyResolution (p : CreatorProfile) (c : DataConflict)
    (r : ResolutionResult) : CreatorProfile :=
  if c.field = "personalInfo.bio" then
    match r.resolvedValue with
    | ResolvedValue.str s => { p with bio := s }
    | _ => p
  else if c.field = "metrics.followerCount" then
    match r.resolvedValue with
    | ResolvedValue.num q => { p with followerCount := q }
    | _ => p
  else p

/-- The loop of `ConflictResolver.resolve`: for each detected conflict,
look its type up in the strategy registry; with no registered strategy
the conflict is skipped (and recorded nowhere); otherwise the strategy
runs against the original profile (a strategy that throws aborts the
whole resolve, modelled as `none`), its resolution is applied to the
accumulating profile copy, and the pair is recorded in the
conflict history. -/
def resolveLoop (orig : CreatorProfile) :
    CreatorProfile → List DataConflict →
    Option (CreatorProfile × List (DataConflict × ResolutionResult))
  | p, [] => some (p, [])
  | p, c :: rest =>
      match resolutionStrategies c.type with
      | none => resolveLoop orig p rest
      | some s =>
          match runStrategy s orig c with
          | none => none
          | some r =>
              (resolveLoop orig (applyResolution p c r) rest).map
                fun x => (x.1, (c, r) :: x.2)

/-- Embedding of `ConflictResolver.resolve`: detect the conflicts for
the given sync results, then fold the resolution loop over a copy of
the profile, returning the resolved profile and the recorded
conflict history. -/
def resolverResolve (profile : CreatorProfile)
    (syncResults : List PlatformSyncResult) :
    Option (CreatorProfile × List (DataConflict × ResolutionResult)) :=
  resolveLoop profile profile (detectConflicts profile syncResults)

/-- Embedding of `CrossPlatformSyncEngine.syncWithPlatform`: the whole
per-platform fetch/detect/transform pipeline is the `behavior`
collaborator, consulted only at this connection's platform id; a
success yields a success record with the changes and metrics, any
thrown error is caught and yields a typed failure record. -/
def syncWithPlatform (behavior : String → Except String (ChangeSet × SyncMetrics))
    (now : ℤ) (conn : SyncPlatformConnection) : PlatformSyncResult :=
  match behavior conn.platformId with
  | Except.ok d =>
      { platformId := conn.platformId, success := true, changes := some d.1,
        metrics := some d.2, error := none, lastSync := now }
  | Except.error e =>
      { platformId := conn.platformId, success := false, changes := none,
        metrics := none, error := some e, lastSync := now }

/-- The value `syncCreatorProfile` returns (`SyncResult`).  The source's
`getConflicts`/`getUpdatedFields` accessors are not defined there; per
the spec the report carries the resolved conflicts and the fields they
updated. -/
structure EngineSyncResult where
  success : Bool
  syncedPlatforms : List String
  conflicts : List (DataConflict × ResolutionResult)
  updatedFields : List String
  timestamp : ℤ
deriving DecidableEq, Repr

/-- Embedding of `CrossPlatformSyncEngine.syncCreatorProfile`: map over
the profile's platform connections, dispatching a fetch for every
connection that has an adapter and status connected (others yield
null and are filtered out); resolve conflicts over the collected
results; and report overall success, the synced platform ids, the
conflicts, and the updated fields.  The resolved profile itself is
persisted through an external store collaborator. -/
def syncCreatorProfile (adapters : String → Bool)
    (behavior : String → Except String (ChangeSet × SyncMetrics))
    (now : ℤ) (profile : CreatorProfile) : Option EngineSyncResult :=
  let validResults := profile.platformConnections.filterMap fun conn =>
    if adapters conn.platformId = true ∧ conn.connectionStatus = ConnStatus.connected then
      some (syncWithPlatform behavior now conn)
    else none
  (resolverResolve profile validResults).map fun x =>
    { success := validResults.all fun r => r.success
      syncedPlatforms := validResults.map fun r => r.platformId
      conflicts := x.2
      updatedFields := x.2.map fun cr => cr.1.field
      timestamp := now }

/-- Scenario A's method: biometric, verified, confidence 0.95. -/
def bioMethod095 : VerificationMethod :=
  { type := VMethodType.biometric, status := VMethodStatus.verified,
    confidence := 0.95, expiresAt := none }

/-- A verified biometric method whose expiry timestamp has passed. -/
def expiredMethod : VerificationMethod :=
  { type := VMethodType.biometric, status := VMethodStatus.verified,
    confidence := 1, expiresAt := some 0 }

/-- A verified biometric method with a malformed negative confidence. -/
def negConfMethod : VerificationMethod :=
  { type := VMethodType.biometric, status := VMethodStatus.verified,
    confidence := -1, expiresAt := none }

/-- A verified platform-verification method with confidence 2, outside
[0,1]. -/
def overConfMethod : VerificationMethod :=
  { type := VMethodType.platform_verification, status := VMethodStatus.verified,
    confidence := 2, expiresAt := none }

/-- An identity with no verification methods yet. -/
def identity0 : UniversalCreativeID :=
  { verificationLevel := 10, verificationMethods := [], connectedPlatforms := [],
    authenticityScore := 10 }

/-- A profile used as the current record in the reconciliation
counterexamples. -/
def profile0 : CreatorProfile :=
  { bio := "old bio", followerCount := 0, platformsVerified := [],
    platformConnections := [] }

/-- Two sync results reporting different changed bios (Scenario D). -/
def rsBioConflict : List PlatformSyncResult :=
  [{ platformId := "tiktok", success := true,
     changes := some { profile := some { bio := some "Hello World" } },
     metrics := none, error := none, lastSync := 1 },
   { platformId := "instagram", success := true,
     changes := some { profile := some { bio := some "a very different biography" } },
     metrics := none, error := none, lastSync := 2 }]

/-- The conflict `detectConflicts` raises for `rsBioConflict`. -/
def bioConflictDetected : DataConflict :=
  { type := "bio_conflict", field := "personalInfo.bio",
    values :=
      [{ platform := "tiktok", count := none, bio := some "Hello World", timestamp := 1 },
       { platform := "instagram", count := none, bio := some "a very different biography",
         timestamp := 2 }],
    severity := "high", autoResolvable := false }

/-- Two sync results reporting follower counts 1000 and 1400
(Scenario C). -/
def rsFollowerVariance : List PlatformSyncResult :=
  [{ platformId := "tiktok", success := true, changes := none,
     metrics := some { followerCount := 1000 }, error := none, lastSync := 1 },
   { platformId := "instagram", success := true, changes := none,
     metrics := some { followerCount := 1400 }, error := none, lastSync := 2 }]

/-- The conflict `detectConflicts` raises for `rsFollowerVariance`. -/
def followerConflictDetected : DataConflict :=
  { type := "follower_count_variance", field := "metrics.followerCount",
    values :=
      [{ platform := "tiktok", count := some 1000, bio := none, timestamp := 1 },
       { platform := "instagram", count := some 1400, bio := none, timestamp := 2 }],
    severity := "medium", autoResolvable := true }

/-- One successful sync result carrying a follower count next to one
failed result carrying no metrics at all. -/
def rsSingleReporter : List PlatformSyncResult :=
  [{ platformId := "tiktok", success := true, changes := none,
     metrics := some { followerCount := 1000 }, error := none, lastSync := 1 },
   { platformId := "instagram", success := false, changes := none,
     metrics := none, error := some "rate limited", lastSync := 2 }]

/-- A conflict of a type for which no strategy is registered. -/
def unregisteredConflict : DataConflict :=
  { type := "location_conflict", field := "personalInfo.location",
    values := [], severity := "high", autoResolvable := false }

/-! Helper lemmas about the verification score. -/

lemma methodWeight_nonneg (t : VMethodType) : 0 ≤ methodWeight t := by
  cases t <;> norm_num [methodWeight]

lemma verificationScore_foldl_eq (methods : List VerificationMethod) :
    ∀ a : ℚ,
      methods.foldl
        (fun score m =>
          if m.status = VMethodStatus.verified then
            score + methodWeight m.type * m.confidence
          else score)
        a = a + (methods.map methodContribution).sum := by
  induction methods with
  | nil => intro a; simp
  | cons m rest ih =>
      intro a
      by_cases hm : m.status = VMethodStatus.verified <;>
        simp [hm, ih, methodContribution, add_assoc]

lemma verificationScore_eq_sum (methods : List VerificationMethod) :
    verificationScore methods = (methods.map methodContribution).sum := by
  simpa using verificationScore_foldl_eq methods 0

lemma methodContribution_nonneg (m : VerificationMethod)
    (h : m.status = VMethodStatus.verified → 0 ≤ m.confidence) :
    0 ≤ methodContribution m := by
  unfold methodContribution
  by_cases hm : m.status = VMethodStatus.verified
  · simpa [hm] using mul_nonneg (methodWeight_nonneg m.type) (h hm)
  · simp [hm]

lemma verificationScore_nonneg (methods : List VerificationMethod)
    (h : ∀ m ∈ methods, m.status = VMethodStatus.verified → 0 ≤ m.confidence) :
    0 ≤ verificationScore methods := by
  rw [verificationScore_eq_sum]
  refine List.sum_nonneg ?_
  intro x hx
  obtain ⟨m, hm, rfl⟩ := List.mem_map.1 hx
  exact methodContribution_nonneg m (h m hm)

lemma verificationScore_append_single (methods : List VerificationMethod)
    (m : VerificationMethod) :
    verificationScore (methods ++ [m]) =
      verificationScore methods + methodContribution m := by
  simp [verificationScore_eq_sum]

lemma verifiedWeightedSum_eq (methods : List VerificationMethod) :
    ((methods.filter (fun m => m.status = VMethodStatus.verified)).map
      (fun m => methodWeight m.type * m.confidence)).sum =
      (methods.map methodContribution).sum := by
  induction methods with
  | nil => simp
  | cons m rest ih =>
      by_cases hm : m.status = VMethodStatus.verified <;>
        simp [hm, List.filter_cons, methodContribution, ih]

lemma calculateVerificationLevel_le_100 (methods : List VerificationMethod) :
    calculateVerificationLevel methods ≤ 100 := by
  exact min_le_left _ _

lemma calculateVerificationLevel_nonneg (methods : List VerificationMethod)
    (h : ∀ m ∈ methods, m.status = VMethodStatus.verified → 0 ≤ m.confidence) :
    0 ≤ calculateVerificationLevel methods := by
  have hs : (0 : ℚ) ≤ verificationScore methods := verificationScore_nonneg methods h
  have hfloor : (0 : ℤ) ≤ ⌊verificationScore methods⌋ := by
    exact_mod_cast Int.le_floor.2 (by exact_mod_cast hs)
  exact le_min (by norm_num) hfloor

/-! Helper lemmas about the conflict pipeline. -/

lemma pickLatest_spec (vs : List Candidate) :
    ∀ v : Candidate, pickLatest v vs ∈ v :: vs ∧
      ∀ y ∈ v :: vs, y.timestamp ≤ (pickLatest v vs).timestamp := by
  induction vs with
  | nil =>
      intro v
      refine ⟨by simp [pickLatest], ?_⟩
      intro y hy
      simp only [List.mem_singleton] at hy
      simp [pickLatest, hy]
  | cons c t ih =>
      intro v
      have hstep : pickLatest v (c :: t) =
          pickLatest (if v.timestamp < c.timestamp then c else v) t := by
        simp [pickLatest]
      obtain ⟨hmem, hle⟩ := ih (if v.timestamp < c.timestamp then c else v)
      have hv : v.timestamp ≤ (if v.timestamp < c.timestamp then c else v).timestamp := by
        by_cases h : v.timestamp < c.timestamp <;> simp [h]
        · exact le_of_lt h
      have hc : c.timestamp ≤ (if v.timestamp < c.timestamp then c else v).timestamp := by
        by_cases h : v.timestamp < c.timestamp <;> simp [h]
        · exact le_of_not_lt h
      constructor
      · rw [hstep]
        rcases List.mem_cons.1 hmem with h | h
        · rw [h]
          by_cases hvc : v.timestamp < c.timestamp <;> simp [hvc]
        · exact List.mem_cons_of_mem _ (List.mem_cons_of_mem _ h)
      · intro y hy
        rw [hstep]
        rcases List.mem_cons.1 hy with rfl | hy'
        · exact le_trans hv (hle _ (List.mem_cons_self _ _))
        rcases List.mem_cons.1 hy' with rfl | hy''
        · exact le_trans hc (hle _ (List.mem_cons_self _ _))
        · exact hle _ (List.mem_cons_of_mem _ hy'')

lemma latestTimestampResolve_spec (c : DataConflict) (h : c.values ≠ []) :
    ∃ best r, latestTimestampResolve c = some r ∧ best ∈ c.values ∧
      (∀ y ∈ c.values, y.timestamp ≤ best.timestamp) ∧
      r.strategy = "latest_timestamp" ∧ r.resolvedValue = jsCountOrValue best := by
  match hv : c.values with
  | [] => exact absurd hv h
  | v :: vs =>
      obtain ⟨hmem, hle⟩ := pickLatest_spec vs v
      refine ⟨pickLatest v vs,
        { resolvedValue := jsCountOrValue (pickLatest v vs)
          strategy := "latest_timestamp"
          confidence := 9 / 10
          reasoning := "Used latest value from " ++ (pickLatest v vs).platform ++
            " (" ++ toString (pickLatest v vs).timestamp ++ ")" },
        ?_, ?_, ?_, rfl, rfl⟩
      · simp [latestTimestampResolve, hv]
      · exact hmem
      · exact hle

lemma latestTimestampResolve_isSome (c : DataConflict) (h : c.values ≠ []) :
    (latestTimestampResolve c).isSome := by
  obtain ⟨best, r, hr, -, -, -, -⟩ := latestTimestampResolve_spec c h
  simp [hr]

lemma longestValueResolve_isSome (c : DataConflict) (h : c.values ≠ []) :
    (longestValueResolve c).isSome := by
  match hv : c.values with
  | [] => exact absurd hv h
  | v :: vs => simp [longestValueResolve, hv]

lemma runStrategy_isSome (s : ResolutionStrategy) (profile : CreatorProfile)
    (c : DataConflict) (h : c.values ≠ []) :
    (runStrategy s profile c).isSome := by
  match hv : c.values with
  | [] => exact absurd hv h
  | v :: vs =>
      cases s with
      | latestTimestamp => exact latestTimestampResolve_isSome c h
      | longestValue => exact longestValueResolve_isSome c h
      | verifiedPlatform =>
          simp only [runStrategy, verifiedPlatformResolve]
          cases c.values.find? (fun v => profile.platformsVerified.contains v.platform) with
          | none => exact latestTimestampResolve_isSome c h
          | some w => simp
      | weightedAverage => simp [runStrategy, weightedAverageResolve, hv]

lemma resolveLoop_isSome (orig : CreatorProfile) (conflicts : List DataConflict)
    (h : ∀ c ∈ conflicts, c.values ≠ []) :
    ∀ p : CreatorProfile, (resolveLoop orig p conflicts).isSome := by
  induction conflicts with
  | nil => intro p; simp [resolveLoop]
  | cons c rest ih =>
      intro p
      have hrest : ∀ x ∈ rest, x.values ≠ [] := fun x hx => h x (List.mem_cons_of_mem _ hx)
      cases hreg : resolutionStrategies c.type with
      | none => simpa [resolveLoop, hreg] using ih hrest p
      | some s =>
          have hrun := runStrategy_isSome s orig c (h c (List.mem_cons_self _ _))
          obtain ⟨r, hr⟩ := Option.isSome_iff_exists.1 hrun
          have := ih hrest (applyResolution p c r)
          simp [resolveLoop, hreg, hr, Option.isSome_map, this]

lemma detectConflicts_values_ne_nil (profile : CreatorProfile)
    (rs : List PlatformSyncResult) :
    ∀ c ∈ detectConflicts profile rs, c.values ≠ [] := by
  intro c hc
  unfold detectConflicts at hc
  rcases List.mem_append.1 hc with h | h
  · by_cases hvar :
        hasSignificantVariance ((followerCandidates rs).map fun f => f.count.getD 0) = true
    · simp only [if_pos hvar, List.mem_singleton] at h
      subst h
      intro hnil
      have hfc : followerCandidates rs = [] := hnil
      rw [hfc] at hvar
      simp [hasSignificantVariance] at hvar
    · simp [hvar] at h
  · by_cases hbio :
        (bioUpdates rs).length > 1 ∧
          hasDifferentValues ((bioUpdates rs).map fun b => b.bio.getD "") = true
    · simp only [if_pos hbio, List.mem_singleton] at h
      subst h
      intro hnil
      have hbu : bioUpdates rs = [] := hnil
      rw [hbu] at hbio
      simp at hbio
    · simp [hbio] at h

lemma resolverResolve_isSome (profile : CreatorProfile)
    (rs : List PlatformSyncResult) : (resolverResolve profile rs).isSome :=
  resolveLoop_isSome profile (detectConflicts profile rs)
    (detectConflicts_values_ne_nil profile rs) profile

lemma hasSignificantVariance_singleton (x : ℚ) :
    hasSignificantVariance [x] = false := by
  simp only [hasSignificantVariance, List.length_singleton, List.sum_singleton,
    List.map_cons, List.map_nil]
  norm_num
  exact mul_self_nonneg x

/-! Claim theorems. -/

/-- C1, counterexample: the source level is not the claimed formula —
it neither excludes verified methods whose `expiresAt` has passed nor
clamps a negative sum up to 0. -/
theorem claimed_formula_counterexample :
    calculateVerificationLevel [expiredMethod] ≠ specVerificationLevel 1 [expiredMethod] ∧
      calculateVerificationLevel [negConfMethod] ≠ specVerificationLevel 1 [negConfMethod] := by
  constructor <;>
    norm_num [calculateVerificationLevel, verificationScore, methodWeight, expiredMethod,
      negConfMethod, specVerificationLevel, notExpired]

/-- C1 (amended): for every list of verification methods whose verified
confidences are nonnegative, the computed level equals the sum over
methods with status verified (expiry is not consulted) of weight times
confidence, clamped to [0,100] and floored; in particular the single
method biometric/verified/0.95 yields 19. -/
theorem calculateVerificationLevel_matches_spec :
    (∀ methods : List VerificationMethod,
        (∀ m ∈ methods, m.status = VMethodStatus.verified → 0 ≤ m.confidence) →
        calculateVerificationLevel methods = specVerificationLevelNoExpiry methods)
      ∧ calculateVerificationLevel [bioMethod095] = 19 := by
  constructor
  · intro methods h
    have hs : (0 : ℚ) ≤ verificationScore methods := verificationScore_nonneg methods h
    unfold specVerificationLevelNoExpiry calculateVerificationLevel
    rw [verifiedWeightedSum_eq, ← verificationScore_eq_sum]
    have hmin : (0 : ℚ) ≤ min 100 (verificationScore methods) := le_min (by norm_num) hs
    rw [max_eq_right hmin]
    rcases le_total (verificationScore methods) 100 with h1 | h1
    · rw [min_eq_right h1]
      have hfl : ⌊verificationScore methods⌋ ≤ (100 : ℤ) := by
        have h2 := Int.floor_le_floor h1
        norm_num at h2
        exact h2
      exact min_eq_right hfl
    · rw [min_eq_left h1]
      have hfl : (100 : ℤ) ≤ ⌊verificationScore methods⌋ :=
        Int.le_floor.2 (by exact_mod_cast h1)
      rw [min_eq_left hfl]
      norm_num
  · norm_num [calculateVerificationLevel, verificationScore, methodWeight, bioMethod095]

/-- C1, witness: the amended equality at Scenario A's method list. -/
theorem calculateVerificationLevel_matches_spec_witness :
    calculateVerificationLevel [bioMethod095] = specVerificationLevelNoExpiry [bioMethod095] :=
  calculateVerificationLevel_matches_spec.1 [bioMethod095]
    (by intro m hm hst; rcases List.mem_singleton.1 hm with rfl; norm_num [bioMethod095])

/-- C2, counterexample: a verified method with confidence -1 is not
clamped; it drives the computed level to -20, below 0. -/
theorem verificationLevel_negative_counterexample :
    calculateVerificationLevel [negConfMethod] < 0 := by
  norm_num [calculateVerificationLevel, verificationScore, methodWeight, negConfMethod]

/-- C2 (amended): the computed level never exceeds 100, and it is
nonnegative whenever every verified method's confidence is
nonnegative (confidence outside [0,1] is used unclamped, so a negative
confidence can drive the level below 0). -/
theorem verificationLevel_bounds_of_nonneg :
    ∀ methods : List VerificationMethod,
      calculateVerificationLevel methods ≤ 100 ∧
        ((∀ m ∈ methods, m.status = VMethodStatus.verified → 0 ≤ m.confidence) →
          0 ≤ calculateVerificationLevel methods) :=
  fun methods =>
    ⟨calculateVerificationLevel_le_100 methods,
     fun h => calculateVerificationLevel_nonneg methods h⟩

/-- C2, witness: the bounds at Scenario A's method list. -/
theorem verificationLevel_bounds_witness :
    calculateVerificationLevel [bioMethod095] ≤ 100 ∧
      0 ≤ calculateVerificationLevel [bioMethod095] :=
  ⟨(verificationLevel_bounds_of_nonneg [bioMethod095]).1,
   (verificationLevel_bounds_of_nonneg [bioMethod095]).2
     (by intro m hm hst; rcases List.mem_singleton.1 hm with rfl; norm_num [bioMethod095])⟩

/-- C3, counterexample: appending a verified method with negative
confidence strictly decreases the computed level. -/
theorem monotonicity_counterexample :
    calculateVerificationLevel ([] ++ [negConfMethod]) < calculateVerificationLevel [] ∧
      negConfMethod.status = VMethodStatus.verified := by
  constructor
  · norm_num [calculateVerificationLevel, verificationScore, methodWeight, negConfMethod]
  · rfl

/-- C3 (amended): appending a verified method with nonnegative
confidence never decreases the computed level (existing methods
unchanged). -/
theorem verificationLevel_monotone_of_nonneg :
    ∀ (methods : List VerificationMethod) (m : VerificationMethod),
      m.status = VMethodStatus.verified → 0 ≤ m.confidence →
      calculateVerificationLevel methods ≤ calculateVerificationLevel (methods ++ [m]) := by
  intro methods m hst hc
  unfold calculateVerificationLevel
  have hcontrib : 0 ≤ methodContribution m := methodContribution_nonneg m (fun _ => hc)
  have hs : verificationScore methods ≤ verificationScore (methods ++ [m]) := by
    rw [verificationScore_append_single]
    linarith
  exact min_le_min (le_refl _) (Int.floor_le_floor hs)

/-- C3, witness: monotonicity when adding Scenario A's method to the
empty list. -/
theorem verificationLevel_monotone_witness :
    calculateVerificationLevel [] ≤ calculateVerificationLevel ([] ++ [bioMethod095]) :=
  verificationLevel_monotone_of_nonneg [] bioMethod095 rfl (by norm_num [bioMethod095])

/-- C5: `createIdentity` stores `verificationLevel = 10` directly (plus
a flat 10 per successfully connected platform) while re-running the
scorer over the stored methods yields 19 — the stored level is not the
scorer's output. -/
theorem createIdentity_stores_flat_level :
    (createIdentity 0.95 []).map
        (fun i => (i.verificationLevel, calculateVerificationLevel i.verificationMethods)) =
      Except.ok ((10 : ℤ), (19 : ℤ)) ∧
    (createIdentityWith (fun _ => Except.ok "connected") 0.95 ["tiktok"]).map
        (fun i => (i.verificationLevel, calculateVerificationLevel i.verificationMethods)) =
      Except.ok ((20 : ℤ), (19 : ℤ)) ∧
    (10 : ℤ) ≠ 19 := by
  refine ⟨?_, ?_, by norm_num⟩ <;>
    norm_num [createIdentity, createIdentityWith, connectPlatform,
      calculateVerificationLevel, verificationScore, methodWeight, Except.map]

/-- C9, counterexample: a method with confidence 2 (outside [0,1]) is
accepted unclamped — the operation succeeds, stores the method as
supplied, and returns level 50 rather than failing. -/
theorem updateVerificationLevel_accepts_invalid_confidence :
    updateVerificationLevel (some identity0) overConfMethod =
      Except.ok
        ({ identity0 with verificationMethods := [overConfMethod], verificationLevel := 50 },
         50) ∧
      ¬ (overConfMethod.confidence ≤ 1) := by
  constructor
  · norm_num [updateVerificationLevel, identity0, overConfMethod,
      calculateVerificationLevel, verificationScore, methodWeight]
  · norm_num [overConfMethod]

/-- C9 (amended): the exposed verification addition validates nothing —
for every identity found and every supplied method (any confidence,
any type of the enumeration) it succeeds, appends the method as
supplied, and stores the recomputed level. -/
theorem updateVerificationLevel_never_rejects :
    ∀ (id0 : UniversalCreativeID) (m : VerificationMethod),
      updateVerificationLevel (some id0) m =
        Except.ok
          ({ id0 with
             verificationMethods := id0.verificationMethods ++ [m]
             verificationLevel := calculateVerificationLevel (id0.verificationMethods ++ [m]) },
           calculateVerificationLevel (id0.verificationMethods ++ [m])) := by
  intro id0 m
  rfl

/-- C10: identity creation fails whenever the biometric confidence is
strictly below 0.95, and an identity is only produced when the
confidence is at least 0.95. -/
theorem createIdentity_biometric_threshold :
    ∀ (connect : String → Except String String) (c : ℚ) (ps : List String),
      (c < 0.95 →
        createIdentityWith connect c ps =
          Except.error "Biometric verification failed - insufficient confidence") ∧
      (∀ i, createIdentityWith connect c ps = Except.ok i → 0.95 ≤ c) := by
  intro connect c ps
  constructor
  · intro h
    unfold createIdentityWith
    rw [if_pos h]
  · intro i hi
    by_contra hlt
    push_neg at hlt
    unfold createIdentityWith at hi
    rw [if_pos hlt] at hi
    exact Except.noConfusion hi

/-- C10, witness: creation with biometric confidence 0.5 fails. -/
theorem createIdentity_biometric_threshold_witness :
    createIdentityWith connectPlatform (1 / 2) [] =
      Except.error "Biometric verification failed - insufficient confidence" :=
  (createIdentity_biometric_threshold connectPlatform (1 / 2) []).1 (by norm_num)

/-- C4, counterexample: the bio conflict detected for two differing
changed bios is flagged not auto-resolvable, yet the resolver runs its
registered longest-value strategy on it, rewrites the profile's bio,
and records a resolution — it is not left untouched. -/
theorem bio_conflict_resolved_counterexample :
    detectConflicts profile0 rsBioConflict = [bioConflictDetected] ∧
    bioConflictDetected.autoResolvable = false ∧
    resolveLoop profile0 profile0 [bioConflictDetected] =
      some ({ profile0 with bio := "a very different biography" },
        [(bioConflictDetected,
          { resolvedValue := ResolvedValue.str "a very different biography"
            strategy := "longest_value"
            confidence := 17 / 20
            reasoning := "Used longest normalized value from instagram" })]) ∧
    "a very different biography" ≠ profile0.bio := by
  refine ⟨?_, rfl, ?_, by decide⟩
  · simp +decide [rsBioConflict, profile0, bioConflictDetected, detectConflicts,
      hasSignificantVariance, bioUpdates, reportedBio, followerCandidates,
      hasDifferentValues, normalizeText, splitWhitespaceAux, List.filterMap_cons]
  · simp +decide [bioConflictDetected, profile0, resolveLoop, resolutionStrategies,
      runStrategy, longestValueResolve, normalizeText, splitWhitespaceAux, applyResolution]

/-- C4 (amended): the resolver consults only the strategy registry,
never the `autoResolvable` flag: conflicts whose type has no
registered strategy are skipped with the profile unchanged — though
they are also dropped from the recorded history rather than surfaced —
while `bio_conflict`, despite `autoResolvable = false`, has the
longest-value strategy registered and is therefore resolved and
applied. -/
theorem unregistered_conflicts_untouched :
    (∀ (orig p : CreatorProfile) (conflicts : List DataConflict),
        (∀ c ∈ conflicts, resolutionStrategies c.type = none) →
        resolveLoop orig p conflicts = some (p, [])) ∧
      resolutionStrategies "bio_conflict" = some ResolutionStrategy.longestValue := by
  constructor
  · intro orig p conflicts h
    induction conflicts with
    | nil => rfl
    | cons c rest ih =>
        have hc := h c (List.mem_cons_self _ _)
        have hrest := ih fun x hx => h x (List.mem_cons_of_mem _ hx)
        simp [resolveLoop, hc, hrest]
  · rfl

/-- C4, witness: a conflict of unregistered type passes through the
resolve loop with the profile unchanged. -/
theorem unregistered_conflicts_untouched_witness :
    resolveLoop profile0 profile0 [unregisteredConflict] = some (profile0, []) :=
  unregistered_conflicts_untouched.1 profile0 profile0 [unregisteredConflict]
    (by intro c hc; rcases List.mem_singleton.1 hc with rfl; rfl)

/-- C6, counterexample: the follower-count variance conflict for counts
1000/1400 is dispatched to the latest-timestamp strategy, resolving to
the latest value 1400 — not to the spec's weighted average, which
yields 1233 on the same candidates. -/
theorem follower_variance_latest_timestamp_counterexample :
    detectConflicts profile0 rsFollowerVariance = [followerConflictDetected] ∧
    resolutionStrategies followerConflictDetected.type =
      some ResolutionStrategy.latestTimestamp ∧
    runStrategy ResolutionStrategy.latestTimestamp profile0 followerConflictDetected =
      some { resolvedValue := ResolvedValue.num 1400, strategy := "latest_timestamp",
             confidence := 9 / 10, reasoning := "Used latest value from instagram (2)" } ∧
    weightedAverageResolve followerConflictDetected =
      some { resolvedValue := ResolvedValue.num 1233, strategy := "weighted_average",
             confidence := 4 / 5, reasoning := "Weighted average across platforms" } ∧
    ResolvedValue.num 1400 ≠ ResolvedValue.num 1233 := by
  refine ⟨?_, rfl, ?_, ?_, by norm_num⟩
  · simp +decide [rsFollowerVariance, profile0, followerConflictDetected, detectConflicts,
      hasSignificantVariance, bioUpdates, reportedBio, followerCandidates,
      hasDifferentValues, List.filterMap_cons]
    norm_num
  · simp +decide [followerConflictDetected, runStrategy, latestTimestampResolve,
      pickLatest, jsCountOrValue]
  · simp +decide [followerConflictDetected, weightedAverageResolve]
    norm_num [round_eq]

/-- C6 (amended): the strategy registered for `follower_count_variance`
is latest-timestamp, and on every nonempty follower-count-variance
conflict the dispatched strategy resolves with strategy
`latest_timestamp` to the count of a maximal-timestamp candidate —
not by weighted average. -/
theorem follower_variance_resolved_by_latest_timestamp :
    resolutionStrategies "follower_count_variance" =
      some ResolutionStrategy.latestTimestamp ∧
    ∀ (profile : CreatorProfile) (c : DataConflict),
      c.type = "follower_count_variance" → c.values ≠ [] →
      ∃ s r best, resolutionStrategies c.type = some s ∧
        runStrategy s profile c = some r ∧
        r.strategy = "latest_timestamp" ∧
        best ∈ c.values ∧ (∀ y ∈ c.values, y.timestamp ≤ best.timestamp) ∧
        r.resolvedValue = jsCountOrValue best := by
  constructor
  · rfl
  · intro profile c htype hne
    obtain ⟨best, r, hr, hmem, hle, hstrat, hval⟩ := latestTimestampResolve_spec c hne
    refine ⟨ResolutionStrategy.latestTimestamp, r, best, ?_, hr, hstrat, hmem, hle, hval⟩
    rw [htype]
    rfl

/-- C6, witness: the dispatch at the concrete 1000/1400 conflict. -/
theorem follower_variance_resolved_witness :
    ∃ s r best,
      resolutionStrategies followerConflictDetected.type = some s ∧
      runStrategy s profile0 followerConflictDetected = some r ∧
      r.strategy = "latest_timestamp" ∧
      best ∈ followerConflictDetected.values ∧
      (∀ y ∈ followerConflictDetected.values, y.timestamp ≤ best.timestamp) ∧
      r.resolvedValue = jsCountOrValue best :=
  follower_variance_resolved_by_latest_timestamp.2 profile0 followerConflictDetected
    rfl (by decide)

/-- C7, counterexample: with one successful result reporting a follower
count and one failed result carrying no metrics, the follower count is
reported by only one platform, yet the missing metrics default to 0
and a variance conflict is raised. -/
theorem single_reporter_conflict_counterexample :
    (rsSingleReporter.filter fun r => r.metrics.isSome).length = 1 ∧
    (detectConflicts profile0 rsSingleReporter).map (fun c => c.type) =
      ["follower_count_variance"] := by
  constructor
  · rfl
  · simp +decide [rsSingleReporter, profile0, detectConflicts, hasSignificantVariance,
      bioUpdates, reportedBio, followerCandidates, hasDifferentValues,
      List.filterMap_cons]
    norm_num

/-- C7 (amended): a bio conflict is raised exactly when more than one
sync result reports a (truthy) bio change and the reported bios differ
under normalized comparison, and every bio conflict is high-severity
and not auto-resolvable; a sync cycle with at most one result raises
no conflict at all — but a follower-count variance conflict can be
raised when only one platform actually reported the field, because
results without metrics contribute a default 0. -/
theorem detectConflicts_characterization :
    ∀ (profile : CreatorProfile) (rs : List PlatformSyncResult),
      (((detectConflicts profile rs).any fun c => c.type = "bio_conflict") = true ↔
        ((bioUpdates rs).length > 1 ∧
          hasDifferentValues ((bioUpdates rs).map fun b => b.bio.getD "") = true)) ∧
      (∀ c ∈ detectConflicts profile rs, c.type = "bio_conflict" →
        c.severity = "high" ∧ c.autoResolvable = false) ∧
      (rs.length ≤ 1 → detectConflicts profile rs = []) := by
  intro profile rs
  refine ⟨?_, ?_, ?_⟩
  · unfold detectConflicts
    by_cases h1 : hasSignificantVariance
        ((followerCandidates rs).map fun f => f.count.getD 0) = true <;>
      by_cases h2 : (bioUpdates rs).length > 1 ∧
          hasDifferentValues ((bioUpdates rs).map fun b => b.bio.getD "") = true <;>
        simp [h1, h2]
  · intro c hc htype
    unfold detectConflicts at hc
    rcases List.mem_append.1 hc with h | h
    · by_cases h1 : hasSignificantVariance
          ((followerCandidates rs).map fun f => f.count.getD 0) = true
      · simp only [if_pos h1, List.mem_singleton] at h
        subst h
        simp at htype
      · simp [h1] at h
    · by_cases h2 : (bioUpdates rs).length > 1 ∧
          hasDifferentValues ((bioUpdates rs).map fun b => b.bio.getD "") = true
      · simp only [if_pos h2, List.mem_singleton] at h
        subst h
        exact ⟨rfl, rfl⟩
      · simp [h2] at h
  · intro hlen
    match rs with
    | [] =>
        simp [detectConflicts, followerCandidates, bioUpdates, hasSignificantVariance]
    | [r] =>
        have hsv : hasSignificantVariance
            ((followerCandidates [r]).map fun f => f.count.getD 0) = false := by
          simp only [followerCandidates, List.map_map, List.map_cons, List.map_nil]
          exact hasSignificantVariance_singleton _
        have hbu : ¬ ((bioUpdates [r]).length > 1) := by
          have hle : (bioUpdates [r]).length ≤ [r].length :=
            List.length_filterMap_le _ _
          simp only [List.length_singleton] at hle
          omega
        have hc1 : ¬ (hasSignificantVariance
            ((followerCandidates [r]).map fun f => f.count.getD 0) = true) := by
          simp [hsv]
        have hc2 : ¬ ((bioUpdates [r]).length > 1 ∧
            hasDifferentValues ((bioUpdates [r]).map fun b => b.bio.getD "") = true) :=
          fun hcontra => hbu hcontra.1
        simp only [detectConflicts]
        rw [if_neg hc1, if_neg hc2]
        rfl
    | r1 :: r2 :: rest => simp at hlen

/-- C7, witness: an empty sync cycle detects no conflicts. -/
theorem detectConflicts_characterization_witness :
    detectConflicts profile0 [] = [] :=
  (detectConflicts_characterization profile0 []).2.2 (by norm_num)

lemma syncWithPlatform_platformId
    (behavior : String → Except String (ChangeSet × SyncMetrics))
    (now : ℤ) (conn : SyncPlatformConnection) :
    (syncWithPlatform behavior now conn).platformId = conn.platformId := by
  cases h : behavior conn.platformId <;> simp [syncWithPlatform, h]

/-- C8: one platform's failure never aborts the others — every connected
platform with an adapter appears in `syncedPlatforms` whatever the
other fetches do; each per-platform fetch yields either a success
record with metrics or a typed failure record with an error; and a
platform's sync result depends only on the behavior at its own
platform id. -/
theorem sync_partial_failure_isolation :
    (∀ (adapters : String → Bool)
        (behavior : String → Except String (ChangeSet × SyncMetrics))
        (now : ℤ) (profile : CreatorProfile) (conn : SyncPlatformConnection),
        conn ∈ profile.platformConnections →
        conn.connectionStatus = ConnStatus.connected →
        adapters conn.platformId = true →
        ∃ res, syncCreatorProfile adapters behavior now profile = some res ∧
          conn.platformId ∈ res.syncedPlatforms) ∧
    (∀ (behavior : String → Except String (ChangeSet × SyncMetrics))
        (now : ℤ) (conn : SyncPlatformConnection),
        ((syncWithPlatform behavior now conn).success = true ∧
          (syncWithPlatform behavior now conn).metrics.isSome = true ∧
          (syncWithPlatform behavior now conn).error = none) ∨
        ((syncWithPlatform behavior now conn).success = false ∧
          (syncWithPlatform behavior now conn).error.isSome = true)) ∧
    (∀ (b1 b2 : String → Except String (ChangeSet × SyncMetrics))
        (now : ℤ) (conn : SyncPlatformConnection),
        b1 conn.platformId = b2 conn.platformId →
        syncWithPlatform b1 now conn = syncWithPlatform b2 now conn) := by
  refine ⟨?_, ?_, ?_⟩
  · intro adapters behavior now profile conn hmem hconn hadapt
    have hvr : syncWithPlatform behavior now conn ∈
        profile.platformConnections.filterMap fun c =>
          if adapters c.platformId = true ∧ c.connectionStatus = ConnStatus.connected then
            some (syncWithPlatform behavior now c)
          else none :=
      List.mem_filterMap.2 ⟨conn, hmem, by rw [if_pos ⟨hadapt, hconn⟩]⟩
    obtain ⟨x, hx⟩ := Option.isSome_iff_exists.1
      (resolverResolve_isSome profile
        (profile.platformConnections.filterMap fun c =>
          if adapters c.platformId = true ∧ c.connectionStatus = ConnStatus.connected then
            some (syncWithPlatform behavior now c)
          else none))
    have hsync : syncCreatorProfile adapters behavior now profile = some
        { success :=
            (profile.platformConnections.filterMap fun c =>
              if adapters c.platformId = true ∧
                  c.connectionStatus = ConnStatus.connected then
                some (syncWithPlatform behavior now c)
              else none).all fun r => r.success
          syncedPlatforms :=
            (profile.platformConnections.filterMap fun c =>
              if adapters c.platformId = true ∧
                  c.connectionStatus = ConnStatus.connected then
                some (syncWithPlatform behavior now c)
              else none).map fun r => r.platformId
          conflicts := x.2
          updatedFields := x.2.map fun cr => cr.1.field
          timestamp := now } := by
      simp only [syncCreatorProfile]
      rw [hx]
      rfl
    refine ⟨_, hsync, ?_⟩
    simp only [List.mem_map]
    exact ⟨syncWithPlatform behavior now conn, hvr,
      syncWithPlatform_platformId behavior now conn⟩
  · intro behavior now conn
    cases h : behavior conn.platformId with
    | ok d => left; simp [syncWithPlatform, h]
    | error e => right; simp [syncWithPlatform, h]
  · intro b1 b2 now conn h
    unfold syncWithPlatform
    rw [h]

/-- C8, witness: with the instagram fetch failing, the tiktok connection
still appears in `syncedPlatforms`. -/
theorem sync_partial_failure_isolation_witness :
    ∃ res,
      syncCreatorProfile (fun _ => true)
          (fun p =>
            if p = "instagram" then Except.error "boom"
            else Except.ok ({ profile := none }, { followerCount := 1000 }))
          5
          { bio := "bio", followerCount := 0, platformsVerified := [],
            platformConnections :=
              [{ platformId := "tiktok", connectionStatus := ConnStatus.connected },
               { platformId := "instagram", connectionStatus := ConnStatus.connected }] } =
        some res ∧
      "tiktok" ∈ res.syncedPlatforms :=
  sync_partial_failure_isolation.1 (fun _ => true)
    (fun p =>
      if p = "instagram" then Except.error "boom"
      else Except.ok ({ profile := none }, { followerCount := 1000 }))
    5
    { bio := "bio", followerCount := 0, platformsVerified := [],
      platformConnections :=
        [{ platformId := "tiktok", connectionStatus := ConnStatus.connected },
         { platformId := "instagram", connectionStatus := ConnStatus.connected }] }
    { platformId := "tiktok", connectionStatus := ConnStatus.connected }
    (by simp) rfl rfl
